import Mathlib

/-!
Shallow embedding of `src/main.go` of the trx-push repository.

The program is sequential glue: load a YAML config, POST a login request to
obtain a JWT token, query PostgreSQL for pending invoice numbers, and POST each
invoice number to a push endpoint, logging per-record success or failure.

All external effects (file system, HTTP transport, JSON decoding outcome,
database driver) are modelled as explicit inputs describing the outcome the
environment produces; the Go functions become pure Lean functions of those
outcomes plus the mutable globals (`config`, `jwtToken`) threaded explicitly.
-/

namespace TrxPush

/-- The `api` block of `Config` in `src/main.go` (lines 17-22). -/
structure APIConfig where
  loginURL : String
  pushURL : String
  username : String
  password : String
  deriving Repr, DecidableEq

/-- The `database` block of `Config` in `src/main.go` (lines 23-30). -/
structure DatabaseConfig where
  host : String
  port : Int
  user : String
  password : String
  dbname : String
  sslmode : String
  deriving Repr, DecidableEq

/-- `Config` from `src/main.go` lines 16-31. -/
structure Config where
  api : APIConfig
  database : DatabaseConfig
  deriving Repr, DecidableEq

/-- `Transaction` from `src/main.go` lines 33-35: one fetched row. -/
structure Transaction where
  invoiceID : String
  deriving Repr, DecidableEq

/-- `LoginResponse` from `src/main.go` lines 37-39. -/
structure LoginResponse where
  token : String
  deriving Repr, DecidableEq

/-- The Go zero value of the `api` block: all fields empty strings. -/
def zeroAPIConfig : APIConfig := ⟨"", "", "", ""⟩

/-- The Go zero value of the `database` block. -/
def zeroDatabaseConfig : DatabaseConfig := ⟨"", 0, "", "", "", ""⟩

/-- The Go zero value of the global `config` variable (`src/main.go`
line 42) before `loadConfig` runs. -/
def zeroConfig : Config := ⟨zeroAPIConfig, zeroDatabaseConfig⟩

/-- A parsed YAML node, as far as the `Config` schema needs: a string
scalar, an integer scalar, or a mapping from keys to nodes. -/
inductive YamlVal where
  | str (s : String)
  | int (n : Int)
  | map (entries : List (String × YamlVal))
  deriving Repr

/-- Decoding one string-typed field per `yaml.v2` unmarshal semantics: a
missing key leaves the current (zero) value and is no error; a string scalar
is written to the field; a node of any other kind leaves the field untouched
and records a type error, and decoding continues with the other fields. -/
def decodeStringField (entries : List (String × YamlVal)) (key : String)
    (cur : String) : String × List String :=
  match entries.lookup key with
  | none => (cur, [])
  | some (.str s) => (s, [])
  | some _ => (cur, ["cannot unmarshal node for " ++ key ++ " into string"])

/-- Decoding one int-typed field (the `port`), same semantics. -/
def decodeIntField (entries : List (String × YamlVal)) (key : String)
    (cur : Int) : Int × List String :=
  match entries.lookup key with
  | none => (cur, [])
  | some (.int n) => (n, [])
  | some _ => (cur, ["cannot unmarshal node for " ++ key ++ " into int"])

/-- Unmarshal of the `api` block per the yaml tags at `src/main.go`
lines 18-21: field by field, accumulating type errors while continuing, so a
mismatch on one field does not undo another field's write. -/
def decodeAPIConfig (v : YamlVal) (cur : APIConfig) :
    APIConfig × List String :=
  match v with
  | .map es =>
    let lu := decodeStringField es "login_url" cur.loginURL
    let pu := decodeStringField es "push_url" cur.pushURL
    let un := decodeStringField es "username" cur.username
    let pw := decodeStringField es "password" cur.password
    (⟨lu.1, pu.1, un.1, pw.1⟩, lu.2 ++ pu.2 ++ un.2 ++ pw.2)
  | _ => (cur, ["cannot unmarshal node into api struct"])

/-- Unmarshal of the `database` block per the yaml tags at `src/main.go`
lines 24-29. -/
def decodeDatabaseConfig (v : YamlVal) (cur : DatabaseConfig) :
    DatabaseConfig × List String :=
  match v with
  | .map es =>
    let h := decodeStringField es "host" cur.host
    let po := decodeIntField es "port" cur.port
    let us := decodeStringField es "user" cur.user
    let pw := decodeStringField es "password" cur.password
    let dn := decodeStringField es "dbname" cur.dbname
    let sm := decodeStringField es "sslmode" cur.sslmode
    (⟨h.1, po.1, us.1, pw.1, dn.1, sm.1⟩,
      h.2 ++ po.2 ++ us.2 ++ pw.2 ++ dn.2 ++ sm.2)
  | _ => (cur, ["cannot unmarshal node into database struct"])

/-- Unmarshal of a whole document into `Config` per the yaml tags at
`src/main.go` lines 16-31 and `yaml.v2` semantics: decoding writes into the
target field by field and keeps going after a type mismatch, accumulating the
mismatches; unknown keys are ignored.  Returns the (possibly partially)
updated value together with the accumulated type errors. -/
def decodeConfig (v : YamlVal) (cur : Config) : Config × List String :=
  match v with
  | .map es =>
    let api2 :=
      match es.lookup "api" with
      | none => (cur.api, [])
      | some sub => decodeAPIConfig sub cur.api
    let db2 :=
      match es.lookup "database" with
      | none => (cur.database, [])
      | some sub => decodeDatabaseConfig sub cur.database
    (⟨api2.1, db2.1⟩, api2.2 ++ db2.2)
  | _ => (cur, ["cannot unmarshal document into Config"])

/-- Outcome of the environment-dependent steps of `loadConfig` (`src/main.go`
lines 74-86): `os.Open` on the fixed path (a missing or unreadable file is an
`openResult` error), then the YAML syntax parse of the stream.  A syntax
error aborts the decode before anything is written into the target; type
mismatches against the schema are not part of `parseResult` — they arise
during `decodeConfig` and leave partial state. -/
structure ConfigFileOutcome where
  openResult : Except String Unit
  parseResult : Except String YamlVal
  deriving Repr

/-- `loadConfig` (`src/main.go` lines 74-86).  Takes the environment outcome
and the current process-wide `config` state (the zero value before any load),
returns the error result together with the new state.  An open or syntax
error returns before `Decode` writes anything; a type-mismatch during the
decode returns an error but keeps whatever fields were written, mirroring
`yaml.v2`'s partial decoding into `&config`. -/
def loadConfig (o : ConfigFileOutcome) (st : Config) :
    Except String Unit × Config :=
  match o.openResult with
  | .error e => (.error e, st)
  | .ok _ =>
    match o.parseResult with
    | .error e => (.error e, st)
    | .ok doc =>
      match decodeConfig doc st with
      | (st2, []) => (.ok (), st2)
      | (st2, errs) =>
        (.error ("yaml: unmarshal errors: " ++ String.intercalate "; " errs),
          st2)

/-- A JSON body as seen by `json.Unmarshal` into `LoginResponse`: either a
well-formed object, abstracted as an association list from field names to
string values, or malformed input that fails to unmarshal. -/
inductive JsonBody where
  | obj (fields : List (String × String))
  | malformed (e : String)
  deriving Repr, DecidableEq

/-- Behaviour of Go's `encoding/json` `Unmarshal` on the `LoginResponse`
shape (`src/main.go` line 174): malformed input is an error; a well-formed
object fills `Token` from the `access_token` field, and a missing field
leaves the zero value `""`. -/
def unmarshalLoginResponse : JsonBody → Except String LoginResponse
  | .malformed e => .error e
  | .obj fields => .ok ⟨((fields.lookup "access_token").getD "")⟩

/-- Outcome of the network exchange in `loginAndGetToken`: either
`client.Do` fails (transport error), or a response arrives with a status code
and the result of `io.ReadAll` on its body. -/
inductive LoginNetOutcome where
  | transportError (e : String)
  | response (status : Nat) (readResult : Except String JsonBody)
  deriving Repr

/-- `loginAndGetToken` (`src/main.go` lines 142-181).  Takes the network
outcome and the current `jwtToken` global, returns the error result together
with the new `jwtToken`.  Mirrors the source's order exactly: transport error,
then `io.ReadAll` error, then the non-200 status check, then the unmarshal;
only a fully successful exchange assigns `jwtToken`. -/
def loginAndGetToken (o : LoginNetOutcome) (tok : String) :
    Except String Unit × String :=
  match o with
  | .transportError e => (.error e, tok)
  | .response status readResult =>
    match readResult with
    | .error e => (.error e, tok)
    | .ok body =>
      if status ≠ 200 then
        (.error ("failed to login, status: " ++ toString status), tok)
      else
        match unmarshalLoginResponse body with
        | .error e => (.error e, tok)
        | .ok loginResp => (.ok (), loginResp.token)

/-- Outcome the PostgreSQL driver produces for one call of
`getTransactionsFromDB`: `sql.Open` fails, `db.Query` fails, or the query
yields a list of rows where each row's `Scan` either produces the `number`
column or fails. -/
inductive DBOutcome where
  | connectError (e : String)
  | queryError (e : String)
  | rows (scans : List (Except String String))
  deriving Repr

/-- The row loop of `getTransactionsFromDB` (`src/main.go` lines 105-112):
scan rows in order, appending a `Transaction` per row, aborting on the first
scan error. -/
def scanRows : List (Except String String) → Except String (List Transaction)
  | [] => .ok []
  | .error e :: _ => .error e
  | .ok number :: rest =>
    match scanRows rest with
    | .error e => .error e
    | .ok ts => .ok (Transaction.mk number :: ts)

/-- Resource events of `getTransactionsFromDB`: acquisition and release of the
database handle (`sql.Open` / deferred `db.Close`) and of the result set
(`db.Query` / deferred `rows.Close`). -/
inductive DBEvent where
  | connOpen
  | connClose
  | rowsOpen
  | rowsClose
  deriving Repr, DecidableEq

/-- `getTransactionsFromDB` (`src/main.go` lines 89-115) together with its
resource trace.  Go runs deferred calls in LIFO order on every return path:
after a successful `sql.Open`, `db.Close` is deferred (line 97); after a
successful `db.Query`, `rows.Close` is deferred (line 103).  Hence the trace
on each path: a connect error opens nothing; a query error opens and closes
the connection; once rows exist, both handles are opened and both are closed
regardless of whether the scan loop succeeds or fails. -/
def getTransactionsFromDBTraced (o : DBOutcome) :
    Except String (List Transaction) × List DBEvent :=
  match o with
  | .connectError e => (.error e, [])
  | .queryError e => (.error e, [.connOpen, .connClose])
  | .rows scans =>
    (scanRows scans, [.connOpen, .rowsOpen, .rowsClose, .connClose])

/-- The value-level result of `getTransactionsFromDB`. -/
def getTransactionsFromDB (o : DBOutcome) : Except String (List Transaction) :=
  (getTransactionsFromDBTraced o).1

/-- The outbound HTTP request built by `pushTransaction` (`src/main.go`
lines 119-125): method, URL, `Authorization` header value, and body
(`nil` in the source, hence `none`). -/
structure PushRequest where
  method : String
  url : String
  authHeader : String
  body : Option String
  deriving Repr, DecidableEq

/-- Request construction in `pushTransaction` (`src/main.go` lines 119-125):
the URL is built by `fmt.Sprintf` as raw string concatenation of the
configured push endpoint, the literal query prefix, and the invoice
identifier, with no percent-encoding; the header is `Bearer ` plus the
current token; the body is nil. -/
def pushRequest (pushURL invoiceID token : String) : PushRequest :=
  { method := "POST"
    url := pushURL ++ "?invoice_number=" ++ invoiceID
    authHeader := "Bearer " ++ token
    body := none }

/-- Outcome of `client.Do` for one push call: a transport error or a response
with a status code. -/
inductive PushOutcome where
  | transportError (e : String)
  | response (status : Nat)
  deriving Repr, DecidableEq

/-- The result of `pushTransaction` (`src/main.go` lines 118-139) as a
function of the invoice identifier and the network outcome: a transport error
is returned as-is; a non-200 status becomes the formatted error naming the
invoice identifier and the status; a 200 status is success. -/
def pushTransaction (invoiceID : String) (o : PushOutcome) :
    Except String Unit :=
  match o with
  | .transportError e => .error e
  | .response status =>
    if status ≠ 200 then
      .error ("failed to push transaction with invoice_id " ++ invoiceID
        ++ ", status: " ++ toString status)
    else
      .ok ()

/-- One line written by the program's logger during the run.  `tokenAcquired`
is the `log.Printf` inside `loginAndGetToken` (line 179); `pushSuccess` and
`pushFailed` are the two per-record `log.Printf` calls of the dispatch loop
(`src/main.go` lines 66 and 68). -/
inductive LogLine where
  | tokenAcquired (token : String)
  | pushFailed (invoiceID : String) (cause : String)
  | pushSuccess (invoiceID : String)
  deriving Repr, DecidableEq

/-- Per-record log lines are the ones emitted by the dispatch loop, one per
fetched record. -/
def LogLine.perRecord : LogLine → Bool
  | .tokenAcquired _ => false
  | .pushFailed _ _ => true
  | .pushSuccess _ => true

/-- Everything the environment decides during one run of `main`: the config
file outcome, the login exchange outcome, the database outcome, and the
outcome of the i-th push call. -/
structure World where
  configOutcome : ConfigFileOutcome
  loginOutcome : LoginNetOutcome
  dbOutcome : DBOutcome
  pushOutcomes : Nat → PushOutcome

/-- How the process ends: `log.Fatalf` exits with status 1 after a fatal
message; falling off the end of `main` exits with status 0. -/
inductive ExitStatus where
  | fatal (msg : String)
  | normal
  deriving Repr, DecidableEq

/-- The numeric exit status of the process. -/
def ExitStatus.code : ExitStatus → Nat
  | .fatal _ => 1
  | .normal => 0

/-- The observable outcome of one run of `main`: exit status, log lines in
order, the HTTP push requests issued in order, the final values of the two
globals, and the record sequence the fetcher returned (when reached). -/
structure MainResult where
  exit : ExitStatus
  logs : List LogLine
  pushes : List PushRequest
  finalConfig : Config
  finalToken : String
  fetched : Option (List Transaction)
  deriving Repr

/-- The dispatch loop of `main` (`src/main.go` lines 64-70), started at push
call index `i`: for each transaction in order, build and issue the push
request, then log success or failure with the invoice identifier; a failure
never aborts the loop.  Returns the issued requests paired with their log
lines. -/
def dispatchFrom (pushURL token : String) (outcomes : Nat → PushOutcome) :
    Nat → List Transaction → List (PushRequest × LogLine)
  | _, [] => []
  | i, txn :: rest =>
    let req := pushRequest pushURL txn.invoiceID token
    let line :=
      match pushTransaction txn.invoiceID (outcomes i) with
      | .ok _ => LogLine.pushSuccess txn.invoiceID
      | .error e => LogLine.pushFailed txn.invoiceID e
    (req, line) :: dispatchFrom pushURL token outcomes (i + 1) rest

/-- `main` (`src/main.go` lines 46-71): load config, login, fetch, dispatch.
A failure in any of the first three stages is `log.Fatalf` (exit status 1);
the dispatch loop runs to the end and the process then exits normally.  The
globals start as the Go zero values: `config` unpopulated, `jwtToken` empty. -/
def runMain (w : World) : MainResult :=
  match loadConfig w.configOutcome zeroConfig with
  | (.error e, cfgSt) =>
    { exit := .fatal ("Failed to load config: " ++ e), logs := []
      pushes := [], finalConfig := cfgSt, finalToken := "", fetched := none }
  | (.ok _, cfg) =>
    match loginAndGetToken w.loginOutcome "" with
    | (.error e, tok) =>
      { exit := .fatal ("Failed to login and get JWT token: " ++ e)
        logs := [], pushes := [], finalConfig := cfg
        finalToken := tok, fetched := none }
    | (.ok _, tok) =>
      match getTransactionsFromDB w.dbOutcome with
      | .error e =>
        { exit := .fatal ("Failed to get transactions from the database: "
            ++ e)
          logs := [.tokenAcquired tok], pushes := []
          finalConfig := cfg, finalToken := tok, fetched := none }
      | .ok txns =>
        let d := dispatchFrom cfg.api.pushURL tok w.pushOutcomes 0 txns
        { exit := .normal
          logs := LogLine.tokenAcquired tok :: d.map Prod.snd
          pushes := d.map Prod.fst
          finalConfig := cfg, finalToken := tok
          fetched := some txns }

/-- A sample configuration used to instantiate concrete runs. -/
def sampleConfig : Config :=
  { api :=
    { loginURL := "http://api.example/login"
      pushURL := "http://api.example/push"
      username := "user"
      password := "pass" }
    database :=
    { host := "db.example"
      port := 5432
      user := "dbuser"
      password := "dbpass"
      dbname := "invoices"
      sslmode := "disable" } }

/-- A well-formed YAML document whose decode yields `sampleConfig`. -/
def sampleYaml : YamlVal :=
  .map
    [("api", .map
      [("login_url", .str "http://api.example/login")
       , ("push_url", .str "http://api.example/push")
       , ("username", .str "user")
       , ("password", .str "pass")])
     , ("database", .map
      [("host", .str "db.example")
       , ("port", .int 5432)
       , ("user", .str "dbuser")
       , ("password", .str "dbpass")
       , ("dbname", .str "invoices")
       , ("sslmode", .str "disable")])]

/-- A document with one well-typed `api` field and a scalar where the
`database` mapping should be: the decode records a type error for `database`
after having already written `api.login_url`. -/
def badYaml : YamlVal :=
  .map
    [("api", .map [("login_url", .str "http://api.example/login")])
     , ("database", .str "oops")]

/-- A login exchange that succeeds with token `abc123`. -/
def loginOK : LoginNetOutcome :=
  .response 200 (.ok (.obj [("access_token", "abc123")]))

/-- A run with two fetched records where the first push returns 200 and the
second returns 500. -/
def worldMixed : World :=
  { configOutcome := { openResult := .ok (), parseResult := .ok sampleYaml }
    loginOutcome := loginOK
    dbOutcome := .rows [.ok "INV-1", .ok "INV-2"]
    pushOutcomes := fun i => if i = 0 then .response 200 else .response 500 }

/-- A run with one fetched record whose push succeeds. -/
def worldSingle : World :=
  { configOutcome := { openResult := .ok (), parseResult := .ok sampleYaml }
    loginOutcome := loginOK
    dbOutcome := .rows [.ok "INV-1"]
    pushOutcomes := fun _ => .response 200 }

/-- A run where the fixed query matches no rows. -/
def worldEmpty : World :=
  { configOutcome := { openResult := .ok (), parseResult := .ok sampleYaml }
    loginOutcome := loginOK
    dbOutcome := .rows []
    pushOutcomes := fun _ => .response 200 }

theorem scanRows_map_ok (numbers : List String) :
    scanRows (numbers.map Except.ok) = .ok (numbers.map Transaction.mk) := by
  induction numbers with
  | nil => rfl
  | cons n rest ih => simp [scanRows, ih]

theorem dispatchFrom_map_fst (pushURL token : String)
    (outs : Nat → PushOutcome) (txns : List Transaction) : ∀ i : Nat,
    (dispatchFrom pushURL token outs i txns).map Prod.fst
      = txns.map (fun t => pushRequest pushURL t.invoiceID token) := by
  induction txns with
  | nil => intro i; rfl
  | cons t rest ih => intro i; simp [dispatchFrom, ih]

theorem runMain_success_eq (w : World) (cfg : Config) (txns : List Transaction)
    (hc : loadConfig w.configOutcome zeroConfig = (.ok (), cfg))
    (hl : (loginAndGetToken w.loginOutcome "").1 = .ok ())
    (hd : getTransactionsFromDB w.dbOutcome = .ok txns) :
    runMain w =
      { exit := .normal
        logs := LogLine.tokenAcquired ((loginAndGetToken w.loginOutcome "").2)
          :: (dispatchFrom cfg.api.pushURL
              ((loginAndGetToken w.loginOutcome "").2) w.pushOutcomes 0
              txns).map Prod.snd
        pushes := (dispatchFrom cfg.api.pushURL
          ((loginAndGetToken w.loginOutcome "").2) w.pushOutcomes 0
          txns).map Prod.fst
        finalConfig := cfg
        finalToken := (loginAndGetToken w.loginOutcome "").2
        fetched := some txns } := by
  rcases hp : loginAndGetToken w.loginOutcome "" with ⟨r, tok⟩
  rw [hp] at hl
  cases r with
  | error e => simp at hl
  | ok u =>
    cases u
    simp [runMain, hc, hp, hd]

/-- C1: whenever `main` reaches the dispatch loop (config, login, and fetch
succeeded), every fetched record is pushed — the list of issued push requests
is exactly the image of the fetched sequence, so no record's failure aborts
the loop — and the process exits normally with status 0, for every assignment
of per-record push outcomes. -/
theorem main_processes_every_record (w : World) (cfg : Config)
    (txns : List Transaction)
    (hc : loadConfig w.configOutcome zeroConfig = (.ok (), cfg))
    (hl : (loginAndGetToken w.loginOutcome "").1 = .ok ())
    (hd : getTransactionsFromDB w.dbOutcome = .ok txns) :
    (runMain w).exit = ExitStatus.normal
    ∧ (runMain w).exit.code = 0
    ∧ (runMain w).pushes
        = txns.map (fun t => pushRequest cfg.api.pushURL t.invoiceID
            ((loginAndGetToken w.loginOutcome "").2))
    ∧ (runMain w).pushes.length = txns.length := by
  have h := runMain_success_eq w cfg txns hc hl hd
  rw [h]
  refine ⟨rfl, rfl, ?_, ?_⟩
  · exact dispatchFrom_map_fst _ _ _ txns 0
  · rw [dispatchFrom_map_fst _ _ _ txns 0]
    exact txns.length_map _

/-- Witness for C1 on a concrete run with two records where the second push
fails with status 500: both records are still pushed and the run exits with
status 0. -/
theorem main_processes_every_record_witness :
    (runMain worldMixed).exit = ExitStatus.normal
    ∧ (runMain worldMixed).exit.code = 0
    ∧ (runMain worldMixed).pushes.length = 2 := by
  have h := main_processes_every_record worldMixed sampleConfig
    [⟨"INV-1"⟩, ⟨"INV-2"⟩] rfl rfl rfl
  exact ⟨h.1, h.2.1, h.2.2.2⟩

/-- C2: a login exchange answering 200 with body containing field
`access_token = abc123` succeeds and sets the session token to `abc123`;
every non-200 answer (401 in particular, whatever its body or read outcome)
yields an error and leaves the token at its initial empty value. -/
theorem loginAndGetToken_200_sets_non200_leaves :
    loginAndGetToken
      (.response 200 (.ok (.obj [("access_token", "abc123")]))) ""
      = (.ok (), "abc123")
    ∧ ∀ status : Nat, status ≠ 200 → ∀ rr : Except String JsonBody,
        (loginAndGetToken (.response status rr) "").2 = ""
        ∧ ∃ e, (loginAndGetToken (.response status rr) "").1 = .error e := by
  refine ⟨rfl, fun status hs rr => ?_⟩
  cases rr with
  | error e => exact ⟨rfl, e, rfl⟩
  | ok body =>
    refine ⟨?_, "failed to login, status: " ++ toString status, ?_⟩ <;>
      simp [loginAndGetToken, hs]

/-- Witness for C2 at status 401: the login fails and the token stays
empty. -/
theorem loginAndGetToken_200_sets_non200_leaves_witness :
    (401 : Nat) ≠ 200
    ∧ (loginAndGetToken
        (.response 401 (.ok (.obj [("access_token", "abc123")]))) "").2 = ""
    ∧ ∃ e, (loginAndGetToken
        (.response 401 (.ok (.obj [("access_token", "abc123")]))) "").1
        = .error e := by
  have h := loginAndGetToken_200_sets_non200_leaves.2 401 (by decide)
    (.ok (.obj [("access_token", "abc123")]))
  exact ⟨by decide, h.1, h.2⟩

/-- C3 counterexample: a document whose `api.login_url` is well-typed but
whose `database` entry is a scalar makes `loadConfig` return an error while
the settings are no longer the zero value — `api.login_url` was already
written — refuting the claim that a malformed file leaves no partial
state. -/
theorem loadConfig_partial_state_counterexample :
    (loadConfig ⟨.ok (), .ok badYaml⟩ zeroConfig).1
      = .error
        "yaml: unmarshal errors: cannot unmarshal node into database struct"
    ∧ (loadConfig ⟨.ok (), .ok badYaml⟩ zeroConfig).2 ≠ zeroConfig
    ∧ (loadConfig ⟨.ok (), .ok badYaml⟩ zeroConfig).2.api.loginURL
      = "http://api.example/login" := by
  refine ⟨rfl, ?_, rfl⟩
  decide

/-- C3 amended: a well-formed file with every field present populates every
nested field exactly as in the file; a missing file or a YAML syntax error
yields an error and leaves the settings entirely untouched; a file that
parses but mismatches the schema yields an error yet may leave partial state,
keeping the fields decoded before the mismatch. -/
theorem loadConfig_populate_and_error_contract :
    (∀ lu pu un pw h us pw2 dn sm : String, ∀ po : Int,
      loadConfig
        ⟨.ok (), .ok (.map
          [("api", .map
            [("login_url", .str lu), ("push_url", .str pu)
             , ("username", .str un), ("password", .str pw)])
           , ("database", .map
            [("host", .str h), ("port", .int po), ("user", .str us)
             , ("password", .str pw2), ("dbname", .str dn)
             , ("sslmode", .str sm)])])⟩ zeroConfig
        = (.ok (), ⟨⟨lu, pu, un, pw⟩, ⟨h, po, us, pw2, dn, sm⟩⟩))
    ∧ (∀ (e : String) (p : Except String YamlVal),
        loadConfig ⟨.error e, p⟩ zeroConfig = (.error e, zeroConfig))
    ∧ (∀ e : String,
        loadConfig ⟨.ok (), .error e⟩ zeroConfig = (.error e, zeroConfig))
    ∧ (∃ doc : YamlVal, ∃ e : String,
        (loadConfig ⟨.ok (), .ok doc⟩ zeroConfig).1 = .error e
        ∧ (loadConfig ⟨.ok (), .ok doc⟩ zeroConfig).2 ≠ zeroConfig) := by
  refine ⟨fun lu pu un pw h us pw2 dn sm po => rfl,
    fun e p => rfl, fun e => rfl,
    ⟨.map [("api", .map [("login_url", .str "u")]), ("database", .str "x")],
      "yaml: unmarshal errors: cannot unmarshal node into database struct",
      rfl, by decide⟩⟩

/-- C4: the fetcher returns the rows in row order, mapping each row's
`number` column to a `Transaction` with that `InvoiceID`; in particular rows
`INV-1`, `INV-2` yield exactly those two transactions in that order. -/
theorem getTransactionsFromDB_preserves_row_order :
    (∀ numbers : List String,
      getTransactionsFromDB (.rows (numbers.map Except.ok))
        = .ok (numbers.map Transaction.mk))
    ∧ getTransactionsFromDB (.rows [.ok "INV-1", .ok "INV-2"])
        = .ok [⟨"INV-1"⟩, ⟨"INV-2"⟩] :=
  ⟨fun numbers => scanRows_map_ok numbers, rfl⟩

/-- C5: `pushTransaction` issues a POST to the configured push endpoint with
`?invoice_number=` and the identifier appended, an `Authorization: Bearer`
header and an empty body; it succeeds exactly when the response status is
200; a non-200 status yields an error naming the invoice identifier and the
status, and a transport error is returned as a per-record failure. -/
theorem pushTransaction_status_contract (invoiceID pushURL token : String)
    (o : PushOutcome) :
    pushRequest pushURL invoiceID token =
      { method := "POST"
        url := pushURL ++ "?invoice_number=" ++ invoiceID
        authHeader := "Bearer " ++ token
        body := none }
    ∧ (pushTransaction invoiceID o = .ok () ↔ o = .response 200)
    ∧ (∀ status : Nat, status ≠ 200 →
        pushTransaction invoiceID (.response status)
          = .error ("failed to push transaction with invoice_id " ++ invoiceID
              ++ ", status: " ++ toString status))
    ∧ (∀ e : String,
        pushTransaction invoiceID (.transportError e) = .error e) := by
  refine ⟨rfl, ?_, ?_, fun e => rfl⟩
  · cases o with
    | transportError e => simp [pushTransaction]
    | response status =>
      by_cases h : status = 200
      · subst h; simp [pushTransaction]
      · simp [pushTransaction, h]
  · intro status hs
    simp [pushTransaction, hs]

/-- Witness for C5 at invoice `INV-9` and status 500: the push fails with the
formatted error naming the identifier and the status. -/
theorem pushTransaction_status_contract_witness :
    (500 : Nat) ≠ 200
    ∧ pushTransaction "INV-9" (.response 500)
        = .error ("failed to push transaction with invoice_id INV-9"
            ++ ", status: " ++ toString 500) :=
  ⟨by decide,
    (pushTransaction_status_contract "INV-9" "http://api.example/push" "tok"
      (.response 500)).2.2.1 500 (by decide)⟩

/-- C6: in every run that reaches the dispatch loop, the session token held
in the global is the one the successful login wrote, every issued push
request carries that token in its bearer header, and the dispatcher iterates
exactly the sequence the fetcher returned, unmodified. -/
theorem main_token_populated_before_push (w : World) (cfg : Config)
    (txns : List Transaction)
    (hc : loadConfig w.configOutcome zeroConfig = (.ok (), cfg))
    (hl : (loginAndGetToken w.loginOutcome "").1 = .ok ())
    (hd : getTransactionsFromDB w.dbOutcome = .ok txns) :
    (runMain w).finalToken = (loginAndGetToken w.loginOutcome "").2
    ∧ (runMain w).fetched = some txns
    ∧ (runMain w).pushes
        = txns.map (fun t => pushRequest cfg.api.pushURL t.invoiceID
            ((runMain w).finalToken))
    ∧ ∀ req ∈ (runMain w).pushes,
        req.authHeader = "Bearer " ++ (runMain w).finalToken := by
  have h := runMain_success_eq w cfg txns hc hl hd
  rw [h]
  refine ⟨rfl, rfl, dispatchFrom_map_fst _ _ _ txns 0, ?_⟩
  intro req hreq
  rw [dispatchFrom_map_fst _ _ _ txns 0] at hreq
  simp only [List.mem_map] at hreq
  obtain ⟨t, _, rfl⟩ := hreq
  rfl

/-- Witness for C6 on a concrete single-record run: the final token is the
one the login set, and the issued request carries it in the bearer header. -/
theorem main_token_populated_before_push_witness :
    (runMain worldSingle).finalToken = "abc123"
    ∧ ∀ req ∈ (runMain worldSingle).pushes,
        req.authHeader = "Bearer " ++ (runMain worldSingle).finalToken := by
  have h := main_token_populated_before_push worldSingle sampleConfig
    [⟨"INV-1"⟩] rfl rfl rfl
  exact ⟨h.1.trans rfl, h.2.2.2⟩

/-- C7: on every exit path of `getTransactionsFromDB` — connect error, query
error, or rows with any mix of scan successes and failures — every acquired
resource is released: the trace closes the connection as often as it opens
it, likewise for the row set, and each close occurs exactly when the matching
open did. -/
theorem getTransactionsFromDB_releases_resources (o : DBOutcome) :
    ((getTransactionsFromDBTraced o).2.count DBEvent.connOpen
      = (getTransactionsFromDBTraced o).2.count DBEvent.connClose)
    ∧ ((getTransactionsFromDBTraced o).2.count DBEvent.rowsOpen
      = (getTransactionsFromDBTraced o).2.count DBEvent.rowsClose)
    ∧ (DBEvent.connOpen ∈ (getTransactionsFromDBTraced o).2
        ↔ DBEvent.connClose ∈ (getTransactionsFromDBTraced o).2)
    ∧ (DBEvent.rowsOpen ∈ (getTransactionsFromDBTraced o).2
        ↔ DBEvent.rowsClose ∈ (getTransactionsFromDBTraced o).2) := by
  cases o <;> simp only [getTransactionsFromDBTraced] <;> decide

/-- C8: when the fetcher returns an empty sequence, the run issues zero push
calls, emits no per-record log lines, and exits normally with status 0. -/
theorem main_empty_fetch_no_pushes (w : World) (cfg : Config)
    (hc : loadConfig w.configOutcome zeroConfig = (.ok (), cfg))
    (hl : (loginAndGetToken w.loginOutcome "").1 = .ok ())
    (hd : getTransactionsFromDB w.dbOutcome = .ok []) :
    (runMain w).pushes = []
    ∧ (runMain w).logs.filter LogLine.perRecord = []
    ∧ (runMain w).exit = ExitStatus.normal
    ∧ (runMain w).exit.code = 0 := by
  have h := runMain_success_eq w cfg [] hc hl hd
  rw [h]
  refine ⟨rfl, ?_, rfl, rfl⟩
  simp [dispatchFrom, LogLine.perRecord]

/-- Witness for C8 on a concrete run whose query matches no rows. -/
theorem main_empty_fetch_no_pushes_witness :
    (runMain worldEmpty).pushes = []
    ∧ (runMain worldEmpty).logs.filter LogLine.perRecord = []
    ∧ (runMain worldEmpty).exit = ExitStatus.normal
    ∧ (runMain worldEmpty).exit.code = 0 :=
  main_empty_fetch_no_pushes worldEmpty sampleConfig rfl rfl rfl

/-- C9: a 200 login response whose well-formed JSON body yields no (or an
empty) `access_token` value still succeeds, setting the session token to the
empty string, so every subsequent push request's header value is exactly
`Bearer ` followed by nothing; no error is raised for the missing field. -/
theorem login_missing_token_empty_bearer (fields : List (String × String))
    (h : ((fields.lookup "access_token").getD "") = "") :
    loginAndGetToken (.response 200 (.ok (.obj fields))) "" = (.ok (), "")
    ∧ ∀ pushURL invoiceID : String,
        (pushRequest pushURL invoiceID
          ((loginAndGetToken (.response 200 (.ok (.obj fields))) "").2)).authHeader
          = "Bearer " := by
  have hrun : loginAndGetToken (.response 200 (.ok (.obj fields))) ""
      = (.ok (), "") := by
    simp [loginAndGetToken, unmarshalLoginResponse, h]
  exact ⟨hrun, fun pushURL invoiceID => by rw [hrun]; rfl⟩

/-- Witness for C9 on a body whose only field is `token_type`: login succeeds
with an empty session token. -/
theorem login_missing_token_empty_bearer_witness :
    ((([("token_type", "jwt")] : List (String × String)).lookup
        "access_token").getD "" = "")
    ∧ loginAndGetToken
        (.response 200 (.ok (.obj [("token_type", "jwt")]))) ""
        = (.ok (), "") :=
  ⟨by decide,
    (login_missing_token_empty_bearer [("token_type", "jwt")] (by decide)).1⟩

/-- C10: the push URL is built by raw concatenation of the configured
endpoint, the literal query marker, and the identifier, with no
percent-encoding: identifiers containing `&`, `#` or a space are inserted
verbatim into the URL. -/
theorem pushRequest_raw_concatenation :
    (∀ pushURL invoiceID token : String,
      (pushRequest pushURL invoiceID token).url
        = pushURL ++ "?invoice_number=" ++ invoiceID)
    ∧ (pushRequest "http://h/push" "INV-1&status=9" "tok").url
        = "http://h/push?invoice_number=INV-1&status=9"
    ∧ (pushRequest "http://h/push" "INV 7#frag" "tok").url
        = "http://h/push?invoice_number=INV 7#frag" :=
  ⟨fun _ _ _ => rfl, rfl, rfl⟩

end TrxPush
